import Mathlib

/-!
Verification of the ToiletSeatCloser control program
(src/MicroPython/main.py) against its natural-language specification.

The embedding below translates the core control logic of main.py into
Lean definitions:

- the calibration constants (main.py lines 15-23) become Lean constants;
- the interrupt handler button_interrupt (lines 85-111) becomes a pure
  transition function on a record of the four global booleans;
- detect_presence (lines 113-128) becomes a pure function taking the
  sensor readings (brightness, distance) and the previous_distance
  global as arguments and returning the verdict together with the new
  previous_distance;
- motor_spin (lines 158-181) becomes a fuel-structured loop over the
  requested number of steps; the interrupt context is modelled as a
  schedule telling during which inter-step sleeps a button edge
  arrives (per the design, the sleeps are the suspension points at
  which the shared flags can change; the flags are read only at the
  inter-step checkpoint);
- the AUTOMATIC-mode block of main (lines 193-216) becomes a pair of
  fuel-structured loop functions over a stream of presence verdicts
  and a schedule of button edges arriving during sleeps, producing the
  list of observable actions (display calls, sleeps, the close-action
  print, motor invocations) plus the final shared-flag state.

Hardware reads (measure_brightness, measure_distance, pin objects) are
external inputs and are modelled as parameters; distances are rationals
(the Python floats enter only through the two order comparisons of
detect_presence, which are exact on the sampled values).
-/

/-! ## Calibration constants (main.py lines 15-23) -/

def action_after_seconds : Nat := 60

def brightness_threshold : Nat := 25000

def motion_threshold : ℚ := 5

def polling_interval_presence : Nat := 1

def polling_interval_standby : Nat := 5

def previous_distance_boot : ℚ := 165

def step_count : Nat := 2048

/-! ## Mode state machine (main.py lines 51-52, 83-111)

The four shared globals mode_debug, mode_manual, mode_switch and
button_pushed form the state the interrupt handler mutates. -/

structure ModeState where
  mode_debug : Bool
  mode_manual : Bool
  mode_switch : Bool
  button_pushed : Bool
deriving DecidableEq

/-- Result of one interrupt: either the new global state, or the
defensive both-flags-true branch of lines 106-111, which cleans up the
motor, reports a state machine error and exits the process. -/
inductive IrqResult where
  | ok (s : ModeState)
  | stateMachineError
deriving DecidableEq

/-- button_interrupt, main.py lines 85-111: sets button_pushed, then
cycles AUTO (F,F) to MANUAL (F,T) to DEBUG (T,F) to AUTO, setting
mode_switch on every taken transition. -/
def button_interrupt (s : ModeState) : IrqResult :=
  let s := { s with button_pushed := true }
  if !s.mode_debug && !s.mode_manual then
    IrqResult.ok { s with mode_manual := true, mode_switch := true }
  else if !s.mode_debug && s.mode_manual then
    IrqResult.ok { s with mode_debug := true, mode_manual := false, mode_switch := true }
  else if s.mode_debug && !s.mode_manual then
    IrqResult.ok { s with mode_debug := false, mode_manual := false, mode_switch := true }
  else
    IrqResult.stateMachineError

/-- N successive button edges, each one running the interrupt handler;
once the defensive error branch is hit the machine has exited. -/
def iterate_button : Nat → IrqResult → IrqResult
  | 0, r => r
  | n + 1, IrqResult.ok s => iterate_button n (button_interrupt s)
  | _ + 1, IrqResult.stateMachineError => IrqResult.stateMachineError

/-- The three operating modes named by the spec; DEBUG in the source is
the spec name CALIBRATION. -/
inductive OperatingMode where
  | AUTOMATIC
  | MANUAL
  | CALIBRATION
deriving DecidableEq

/-- Decoding of the (mode_debug, mode_manual) flag pair; both flags set
is the unreachable error configuration. -/
def modeOf (s : ModeState) : Option OperatingMode :=
  match s.mode_debug, s.mode_manual with
  | false, false => some OperatingMode.AUTOMATIC
  | false, true  => some OperatingMode.MANUAL
  | true,  false => some OperatingMode.CALIBRATION
  | true,  true  => none

/-- The n-th element (mod 3) of the cycle AUTOMATIC, MANUAL, CALIBRATION. -/
def modeCycle (n : Nat) : OperatingMode :=
  match n % 3 with
  | 0 => OperatingMode.AUTOMATIC
  | 1 => OperatingMode.MANUAL
  | _ => OperatingMode.CALIBRATION

/-- Flag pair (mode_debug, mode_manual) of the n-th mode of the cycle. -/
def modeFlags (n : Nat) : Bool × Bool :=
  match n % 3 with
  | 0 => (false, false)
  | 1 => (false, true)
  | _ => (true, false)

/-! ## Sensor fusion (main.py lines 113-128) -/

/-- detect_presence, main.py lines 113-128.  The hardware reads
measure_brightness and measure_distance are inputs; the global
previous_distance enters as the first argument and its new value (the
unconditional write of line 126) is the second component of the
result.  The flag-setting if statements of lines 115-125 are kept as
shadowing let bindings. -/
def detect_presence (previous_distance : ℚ) (brightness : Nat) (distance : ℚ) :
    Bool × ℚ :=
  let brightness_detected := false
  let motion_detected := false
  let presence_detected := false
  let brightness_detected :=
    if brightness > brightness_threshold then true else brightness_detected
  let motion_detected :=
    if distance > previous_distance + motion_threshold ∨
       distance < previous_distance - motion_threshold then true else motion_detected
  let presence_detected :=
    if brightness_detected || motion_detected then true else presence_detected
  (presence_detected, distance)

/-! ## Theorems: mode state machine and sensor fusion -/

theorem iterate_button_succ_ok (n : Nat) (s : ModeState) :
    iterate_button (n + 1) (IrqResult.ok s) = iterate_button n (button_interrupt s) := rfl

theorem iterate_from : ∀ (N m : Nat) (ms bp : Bool),
    iterate_button N (IrqResult.ok
      { mode_debug := (modeFlags m).1, mode_manual := (modeFlags m).2,
        mode_switch := ms, button_pushed := bp }) =
    IrqResult.ok
      { mode_debug := (modeFlags (m + N)).1, mode_manual := (modeFlags (m + N)).2,
        mode_switch := if N = 0 then ms else true,
        button_pushed := if N = 0 then bp else true } := by
  intro N
  induction N with
  | zero => intro m ms bp; simp [iterate_button]
  | succ N ih =>
    intro m ms bp
    have h3 : m % 3 = 0 ∨ m % 3 = 1 ∨ m % 3 = 2 := by omega
    have hstep : button_interrupt
        { mode_debug := (modeFlags m).1, mode_manual := (modeFlags m).2,
          mode_switch := ms, button_pushed := bp } =
        IrqResult.ok
          { mode_debug := (modeFlags (m + 1)).1, mode_manual := (modeFlags (m + 1)).2,
            mode_switch := true, button_pushed := true } := by
      rcases h3 with h | h | h
      · have h1 : (m + 1) % 3 = 1 := by omega
        simp [modeFlags, h, h1, button_interrupt]
      · have h1 : (m + 1) % 3 = 2 := by omega
        simp [modeFlags, h, h1, button_interrupt]
      · have h1 : (m + 1) % 3 = 0 := by omega
        simp [modeFlags, h, h1, button_interrupt]
    rw [iterate_button_succ_ok, hstep, ih (m + 1) true true]
    have harith : m + 1 + N = m + (N + 1) := by omega
    rw [harith]
    simp

/-- Claim C1: starting from the AUTOMATIC state (mode_debug = false,
mode_manual = false), N button edges leave the interrupt handler in the
(N mod 3)-th mode of the cycle AUTOMATIC, MANUAL, CALIBRATION, and the
defensive both-flags-true error branch is never reached: every edge
returns an ok state. -/
theorem C1_mode_cycle : ∀ (N : Nat) (ms bp : Bool),
    ∃ s, iterate_button N (IrqResult.ok
          { mode_debug := false, mode_manual := false,
            mode_switch := ms, button_pushed := bp }) = IrqResult.ok s ∧
         modeOf s = some (modeCycle N) := by
  intro N ms bp
  have h := iterate_from N 0 ms bp
  refine ⟨_, h, ?_⟩
  have h3 : N % 3 = 0 ∨ N % 3 = 1 ∨ N % 3 = 2 := by omega
  rcases h3 with h | h | h <;>
    simp [modeFlags, modeOf, modeCycle, h, Nat.zero_add]

/-- Claim C7: the presence verdict of detect_presence is true exactly
when the brightness sample strictly exceeds brightness_threshold or the
new distance differs from the stored previous_distance by strictly more
than motion_threshold in either direction.  The spec scenarios
(brightness 30000 against threshold 25000; distance jump 165 to 175
against motion threshold 5) are instances of this equivalence. -/
theorem C7_detect_presence_iff : ∀ (prev d : ℚ) (b : Nat),
    (detect_presence prev b d).1 =
      (decide (b > brightness_threshold) || decide (d > prev + motion_threshold) ||
       decide (d < prev - motion_threshold)) := by
  intro prev d b
  by_cases h1 : b > brightness_threshold <;>
    by_cases h2 : d > prev + motion_threshold <;>
      by_cases h3 : d < prev - motion_threshold <;>
        simp [detect_presence, h1, h2, h3]

/-- Claim C8: detect_presence always stores the distance just measured
as the new previous_distance (the unconditional write of line 126),
independently of the boolean verdict. -/
theorem C8_baseline_update : ∀ (prev d : ℚ) (b : Nat),
    (detect_presence prev b d).2 = d := by
  intro prev d b
  rfl

/-! ## Actuator driver (main.py lines 154-181)

motor_cleanup (lines 154-156) drives all four motor pins low; its
effect on the pin state is the list [0,0,0,0].  motor_spin
(lines 158-181) drives the four pins through the phase table
step_sequence, one row per loop iteration, checking the shared
button_pushed flag between the pin write and the inter-step sleep.
The interrupt context is modelled by the schedule irq : Nat to Bool;
irq i is true when a button edge arrives during the sleep that ends
loop iteration i (the sleeps are the suspension points of the design;
an edge during iteration i's sleep is therefore an abort request that
became set after i+1 steps were driven).  Python's modulo on negatives
is nonnegative, so the decrementing update (c - 1) % 4 of line 169 is
written (c + 3) % 4 on Nat. -/

def step_sequence : List (List Nat) :=
  [[1,0,0,0],
   [0,1,0,0],
   [0,0,1,0],
   [0,0,0,1]]

/-- Observable outcome of one motor_spin call: the four pin levels on
return, the shared button_pushed flag and motor_retract_steps global on
return, whether the step loop ran to completion (no break), how many
pin-pattern writes were executed, and how many inter-step sleeps ran. -/
structure SpinResult where
  pins : List Nat
  button_pushed : Bool
  motor_retract_steps : Nat
  completed : Bool
  steps_driven : Nat
  sleeps : Nat
deriving DecidableEq

/-- The step loop of motor_spin, lines 165-181, structured on the
number of remaining iterations.  Arguments: remaining iterations, the
loop variable i, motor_step_counter, current pin levels, the shared
button_pushed flag, sleeps executed so far.  The defensive non-boolean
direction branch of lines 172-175 is unreachable here because the
direction is a Bool. -/
def spinLoop (d : Bool) (irq : Nat → Bool) :
    Nat → Nat → Nat → List Nat → Bool → Nat → SpinResult
  | 0, i, _c, pins, flag, sleeps =>
      { pins := pins, button_pushed := flag, motor_retract_steps := 0,
        completed := true, steps_driven := i, sleeps := sleeps }
  | rem + 1, i, c, _pins, flag, sleeps =>
      let pinsNew := step_sequence.get! c
      let cNew := if d then (c + 3) % 4 else (c + 1) % 4
      if flag then
        { pins := [0,0,0,0], button_pushed := false, motor_retract_steps := i,
          completed := false, steps_driven := i + 1, sleeps := sleeps }
      else
        spinLoop d irq rem (i + 1) cNew pinsNew (irq i) (sleeps + 1)

/-- The initialization of motor_spin, lines 159-164: motor_retract_steps
is zeroed, the loop variable and phase counter start at 0, motor_cleanup
forces the pins low; the shared button_pushed flag is NOT touched. -/
structure SpinInit where
  motor_retract_steps : Nat
  i : Nat
  motor_step_counter : Nat
  pins : List Nat
  button_pushed : Bool
deriving DecidableEq

def motor_spin_init (b0 : Bool) : SpinInit :=
  { motor_retract_steps := 0, i := 0, motor_step_counter := 0,
    pins := [0,0,0,0], button_pushed := b0 }

/-- motor_spin, lines 158-181: initialization followed by
revolutions * step_count loop iterations.  b0 is the value of the
shared button_pushed flag on entry; irq the interrupt schedule. -/
def motor_spin (revolutions : Nat) (motor_direction : Bool) (b0 : Bool)
    (irq : Nat → Bool) : SpinResult :=
  spinLoop motor_direction irq (revolutions * step_count)
    (motor_spin_init b0).i (motor_spin_init b0).motor_step_counter
    (motor_spin_init b0).pins (motor_spin_init b0).button_pushed 0

/-! ## Helper lemmas about the step loop -/

theorem spinLoop_succ_flag (d : Bool) (irq : Nat → Bool) (rem i c : Nat)
    (pins : List Nat) (s : Nat) :
    spinLoop d irq (rem + 1) i c pins true s =
      { pins := [0,0,0,0], button_pushed := false, motor_retract_steps := i,
        completed := false, steps_driven := i + 1, sleeps := s } := rfl

theorem spinLoop_succ_noflag (d : Bool) (irq : Nat → Bool) (rem i c : Nat)
    (pins : List Nat) (s : Nat) :
    spinLoop d irq (rem + 1) i c pins false s =
      spinLoop d irq rem (i + 1) (if d then (c + 3) % 4 else (c + 1) % 4)
        (step_sequence.get! c) (irq i) (s + 1) := rfl

theorem motor_spin_entry_abort (d : Bool) (irq : Nat → Bool) (rem i c : Nat)
    (pins : List Nat) (s : Nat) (h : 1 ≤ rem) :
    spinLoop d irq rem i c pins true s =
      { pins := [0,0,0,0], button_pushed := false, motor_retract_steps := i,
        completed := false, steps_driven := i + 1, sleeps := s } := by
  obtain ⟨rem', rfl⟩ : ∃ m, rem = m + 1 := ⟨rem - 1, by omega⟩
  rfl

theorem one_le_mul_step_count {r : Nat} (hr : 1 ≤ r) : 1 ≤ r * step_count := by
  have h : 1 * 1 ≤ r * step_count := Nat.mul_le_mul hr (by norm_num [step_count])
  simpa using h

theorem spinLoop_abort (d : Bool) (irq : Nat → Bool) (a : Nat) :
    ∀ (rem i c : Nat) (pins : List Nat) (s : Nat),
      (∀ j, i ≤ j → j < a → irq j = false) → irq a = true →
      i ≤ a → a + 2 ≤ i + rem →
      spinLoop d irq rem i c pins false s =
        { pins := [0,0,0,0], button_pushed := false, motor_retract_steps := a + 1,
          completed := false, steps_driven := a + 2, sleeps := s + (a + 1 - i) } := by
  intro rem
  induction rem with
  | zero =>
    intro i c pins s _ _ hia hbound
    exfalso; omega
  | succ rem ih =>
    intro i c pins s hpre hfire hia hbound
    rw [spinLoop_succ_noflag]
    by_cases hi : i = a
    · have hfi : irq i = true := by rw [hi]; exact hfire
      rw [hfi]
      have hrem : 1 ≤ rem := by omega
      rw [motor_spin_entry_abort d irq rem (i + 1) _ _ (s + 1) hrem]
      simp only [SpinResult.mk.injEq, true_and, and_true]
      all_goals omega
    · have hlt : i < a := by omega
      rw [hpre i (le_refl i) hlt]
      rw [ih (i + 1) _ _ (s + 1) (fun j hj1 hj2 => hpre j (by omega) hj2) hfire
        (by omega) (by omega)]
      simp only [SpinResult.mk.injEq, true_and, and_true]
      all_goals omega

theorem step_sequence_get_mem : ∀ (c : Nat), c < 4 →
    step_sequence.get! c ∈ step_sequence := by
  intro c hc
  interval_cases c <;> decide

theorem spinLoop_no_irq (d : Bool) (irq : Nat → Bool) (hirq : ∀ j, irq j = false) :
    ∀ (rem i c : Nat) (pins : List Nat) (s : Nat), c < 4 →
      ∃ p, spinLoop d irq rem i c pins false s =
             { pins := p, button_pushed := false, motor_retract_steps := 0,
               completed := true, steps_driven := i + rem, sleeps := s + rem } ∧
           (rem = 0 → p = pins) ∧ (1 ≤ rem → p ∈ step_sequence) := by
  intro rem
  induction rem with
  | zero =>
    intro i c pins s _hc
    refine ⟨pins, ?_, fun _ => rfl, fun h => absurd h (by omega)⟩
    simp [spinLoop]
  | succ rem ih =>
    intro i c pins s hc
    rw [spinLoop_succ_noflag, hirq i]
    have hc' : (if d then (c + 3) % 4 else (c + 1) % 4) < 4 := by
      split <;> exact Nat.mod_lt _ (by norm_num)
    obtain ⟨p, heq, h0, hmem⟩ := ih (i + 1) _ (step_sequence.get! c) (s + 1) hc'
    refine ⟨p, ?_, fun h => absurd h (by omega), fun _ => ?_⟩
    · rw [heq]
      simp only [SpinResult.mk.injEq, true_and, and_true]
      all_goals omega
    · rcases Nat.eq_zero_or_pos rem with h | h
      · rw [h0 h]
        exact step_sequence_get_mem c hc
      · exact hmem h

/-! ## Theorems: actuator driver claims -/

/-- Claim C3: when the abort flag becomes set after k of the n requested
steps (0 < k < n, modelled by a button edge arriving during the sleep
that follows the k-th step and no earlier edge), motor_spin returns
early (completed = false) with motor_retract_steps = k, the
button_pushed flag cleared, and all four motor pins low. -/
theorem C3_abort_records_k : ∀ (r k : Nat) (d : Bool) (irq : Nat → Bool),
    0 < k → k < r * step_count →
    (∀ j, j < k - 1 → irq j = false) → irq (k - 1) = true →
    motor_spin r d false irq =
      { pins := [0,0,0,0], button_pushed := false, motor_retract_steps := k,
        completed := false, steps_driven := k + 1, sleeps := k } := by
  intro r k d irq hk hkn hpre hfire
  have h := spinLoop_abort d irq (k - 1) (r * step_count) 0 0 [0,0,0,0] 0
      (fun j _ hj => hpre j hj) hfire (by omega) (by omega)
  have hms : motor_spin r d false irq =
      spinLoop d irq (r * step_count) 0 0 [0,0,0,0] false 0 := rfl
  rw [hms, h]
  simp only [SpinResult.mk.injEq, true_and, and_true]
  all_goals omega

/-- Claim C3 witness: a concrete one-revolution request whose abort flag
is set after the first step (edge during sleep 0) ends with
motor_retract_steps = 1, pins low and the flag cleared. -/
theorem C3_abort_records_k_witness :
    motor_spin 1 false false (fun j => j == 0) =
      { pins := [0,0,0,0], button_pushed := false, motor_retract_steps := 1,
        completed := false, steps_driven := 2, sleeps := 1 } :=
  C3_abort_records_k 1 1 false (fun j => j == 0) (by decide)
    (by norm_num [step_count]) (fun j hj => absurd hj (by omega)) (by decide)

/-- Claim C4 counterexample: a motor_spin call that runs to completion
with no abort does NOT leave all four outputs low; after the final step
of a one-revolution uninterrupted close-direction call the last driven
phase stays energized.  The source runs motor_cleanup before the loop
(line 164) and in the abort branch (line 177), but not after a
completed loop. -/
theorem C4_completed_run_pins_cex :
    (motor_spin 1 false false (fun _ => false)).pins ≠ [0,0,0,0] := by
  obtain ⟨p, heq, -, hmem⟩ := spinLoop_no_irq false (fun _ => false) (fun _ => rfl)
    (1 * step_count) 0 0 [0,0,0,0] 0 (by norm_num)
  have hmem' : p ∈ step_sequence := hmem (by norm_num [step_count])
  have hpin : (motor_spin 1 false false (fun _ => false)).pins = p := by
    have hms : motor_spin 1 false false (fun _ => false) =
        spinLoop false (fun _ => false) (1 * step_count) 0 0 [0,0,0,0] false 0 := rfl
    rw [hms, heq]
  rw [hpin]
  fin_cases hmem' <;> decide

/-- Claim C4 amended: motor_spin forces all four outputs low before its
step loop begins (the cleanup of line 164) and after an aborted
sequence (line 177), but after a run to completion the last driven
phase row remains on the pins (exactly one output stays energized);
consecutive calls still see a de-energized state between the first
call's loop and the second call's first step only because each call
begins with motor_cleanup. -/
theorem C4_cleanup_amended : ∀ (r : Nat) (d b : Bool) (irq : Nat → Bool),
    (motor_spin_init b).pins = [0,0,0,0] ∧
    (1 ≤ r → (∀ j, irq j = false) →
      (motor_spin r d false irq).completed = true ∧
      (motor_spin r d false irq).pins ∈ step_sequence ∧
      (motor_spin r d false irq).pins ≠ [0,0,0,0]) ∧
    (1 ≤ r → (motor_spin r d true irq).pins = [0,0,0,0]) := by
  intro r d b irq
  refine ⟨rfl, fun hr hirq => ?_, fun hr => ?_⟩
  · obtain ⟨p, heq, -, hmem⟩ := spinLoop_no_irq d irq hirq
      (r * step_count) 0 0 [0,0,0,0] 0 (by norm_num)
    have hmem' : p ∈ step_sequence := hmem (one_le_mul_step_count hr)
    have hms : motor_spin r d false irq =
        spinLoop d irq (r * step_count) 0 0 [0,0,0,0] false 0 := rfl
    rw [hms, heq]
    refine ⟨rfl, hmem', ?_⟩
    simp only []
    intro hcontra
    rw [hcontra] at hmem'
    revert hmem'
    decide
  · have h := motor_spin_entry_abort d irq (r * step_count) 0 0 [0,0,0,0] 0
      (one_le_mul_step_count hr)
    have hms : motor_spin r d true irq =
        spinLoop d irq (r * step_count) 0 0 [0,0,0,0] true 0 := rfl
    rw [hms, h]

/-- Claim C4 witness: the amended statement instantiated at a concrete
one-revolution call. -/
theorem C4_cleanup_amended_witness :
    (motor_spin_init false).pins = [0,0,0,0] ∧
    (motor_spin 1 false false (fun _ => false)).completed = true ∧
    (motor_spin 1 false true (fun _ => false)).pins = [0,0,0,0] := by
  obtain ⟨h1, h2, h3⟩ := C4_cleanup_amended 1 false false (fun _ => false)
  exact ⟨h1, (h2 (by decide) (fun _ => rfl)).1, h3 (by decide)⟩

/-- Claim C5 counterexample: the claim says button_pushed is false
immediately after motor_spin's initialization for every entry state,
but entering with the flag set leaves it set: lines 159-164 never write
button_pushed. -/
theorem C5_flag_not_cleared_cex : (motor_spin_init true).button_pushed = true := rfl

/-- Claim C5 amended: motor_spin's initialization leaves button_pushed
unchanged (it is not cleared at the start of an actuation); an
entry-set flag is cleared only at the first inter-step checkpoint,
after one step has been driven. -/
theorem C5_flag_amended : ∀ (b : Bool) (r : Nat) (d : Bool) (irq : Nat → Bool),
    (motor_spin_init b).button_pushed = b ∧
    (1 ≤ r → (motor_spin r d true irq).button_pushed = false) := by
  intro b r d irq
  refine ⟨rfl, fun hr => ?_⟩
  have h := motor_spin_entry_abort d irq (r * step_count) 0 0 [0,0,0,0] 0
    (one_le_mul_step_count hr)
  exact congrArg SpinResult.button_pushed h

/-- Claim C5 witness: the amended statement at a concrete entry-set
one-revolution call. -/
theorem C5_flag_amended_witness :
    (motor_spin_init true).button_pushed = true ∧
    (motor_spin 1 false true (fun _ => false)).button_pushed = false := by
  obtain ⟨h1, h2⟩ := C5_flag_amended true 1 false (fun _ => false)
  exact ⟨h1, h2 (by decide)⟩

/-- Claim C10: entering motor_spin with button_pushed already set and a
request of at least one revolution drives exactly one step, then
de-energizes all four outputs, records motor_retract_steps = 0, clears
button_pushed and returns without executing any inter-step sleep. -/
theorem C10_entry_abort : ∀ (r : Nat) (d : Bool) (irq : Nat → Bool), 1 ≤ r →
    motor_spin r d true irq =
      { pins := [0,0,0,0], button_pushed := false, motor_retract_steps := 0,
        completed := false, steps_driven := 1, sleeps := 0 } := by
  intro r d irq hr
  exact motor_spin_entry_abort d irq (r * step_count) 0 0 [0,0,0,0] 0
    (one_le_mul_step_count hr)

/-- Claim C10 witness: the entry-set abort at a concrete one-revolution
call. -/
theorem C10_entry_abort_witness :
    motor_spin 1 false true (fun _ => false) =
      { pins := [0,0,0,0], button_pushed := false, motor_retract_steps := 0,
        completed := false, steps_driven := 1, sleeps := 0 } :=
  C10_entry_abort 1 false (fun _ => false) (by decide)

/-! ## The AUTOMATIC-mode block of main (main.py lines 184-216)

The block is driven by two external streams: pres n is the verdict of
the n-th detect_presence call made inside the block, and irqAt n tells
whether a button edge arrives during the n-th sleep executed by the
block (the sleeps are the suspension points; an edge arriving anywhere
else is observed at the next flag read, which the loop structure reads
only at loop tops).  The block records every observable action it
performs as an Event.  A motorSpin event constructor exists so that
invoking the actuator would be visible in the trace; the AUTOMATIC
block of the source never performs one. -/

inductive Event where
  | poll (verdict : Bool)
  | showSomething
  | sleepEv (secs : Nat)
  | closePrint
  | oledOff
  | motorSpin (close_direction : Bool)
deriving DecidableEq

/-- Running state of the block: the trace so far, the shared
mode_switch flag, the presence_detected local, and counters indexing
the two external streams. -/
structure LoopState where
  events : List Event
  mode_switch : Bool
  presence_detected : Bool
  pollIdx : Nat
  sleepIdx : Nat
deriving DecidableEq

/-- A utime.sleep call; during it the interrupt context may set
mode_switch (schedule irqAt). -/
def doSleep (irqAt : Nat → Bool) (secs : Nat) (s : LoopState) : LoopState :=
  { s with events := s.events ++ [Event.sleepEv secs],
           mode_switch := s.mode_switch || irqAt s.sleepIdx,
           sleepIdx := s.sleepIdx + 1 }

/-- A detect_presence call assigned to presence_detected. -/
def doPoll (pres : Nat → Bool) (s : LoopState) : LoopState :=
  { s with events := s.events ++ [Event.poll (pres s.pollIdx)],
           presence_detected := pres s.pollIdx,
           pollIdx := s.pollIdx + 1 }

/-- The inner absence-timing loop, main.py lines 204-215: while not
presence_detected, check mode_switch (break WITHOUT clearing), check
the elapsed-absence threshold (print the close message, power the
display off, break), else sleep one polling interval, advance
time_since_presence and re-poll.  Structured on fuel; the loop itself
terminates within action_after_seconds + 1 iterations because
time_since_presence grows by one interval per iteration, so the
fuel-out result none is never returned when called with that much
fuel. -/
def absence_while (pres irqAt : Nat → Bool) :
    Nat → Nat → LoopState → Option LoopState
  | 0, _, _ => none
  | _fuel + 1, time_since_presence, s =>
    if s.presence_detected then some s
    else if s.mode_switch then some s
    else if action_after_seconds ≤ time_since_presence then
      some { s with events := s.events ++ [Event.closePrint, Event.oledOff] }
    else
      absence_while pres irqAt _fuel (time_since_presence + polling_interval_presence)
        (doPoll pres (doSleep irqAt polling_interval_presence s))

/-- The outer presence-tracking loop, main.py lines 195-215: while
presence_detected, check mode_switch (clear it and break), display,
sleep one polling interval, re-poll, zero time_since_presence and run
the absence loop. -/
def presence_while (pres irqAt : Nat → Bool) : Nat → LoopState → Option LoopState
  | 0, _ => none
  | fuel + 1, s =>
    if !s.presence_detected then some s
    else if s.mode_switch then some { s with mode_switch := false }
    else
      let s1 := { s with events := s.events ++ [Event.showSomething] }
      let s2 := doPoll pres (doSleep irqAt polling_interval_presence s1)
      match absence_while pres irqAt (action_after_seconds + 1) 0 s2 with
      | none => none
      | some s3 => presence_while pres irqAt fuel s3

/-- The AUTOMATIC branch of main, lines 193-216: one detect_presence
call, the presence-tracking loop, then the standby-interval sleep. -/
def auto_block (fuel : Nat) (pres irqAt : Nat → Bool) (s : LoopState) :
    Option LoopState :=
  match presence_while pres irqAt fuel (doPoll pres s) with
  | none => none
  | some s1 => some (doSleep irqAt polling_interval_standby s1)

/-- One run of the AUTOMATIC block from an empty trace, given the entry
value of the shared mode_switch flag. -/
def autoRun (fuel : Nat) (pres irqAt : Nat → Bool) (msIn : Bool) :
    Option LoopState :=
  auto_block fuel pres irqAt
    { events := [], mode_switch := msIn, presence_detected := false,
      pollIdx := 0, sleepIdx := 0 }

/-! ## Trace observations used by the scheduler claims -/

def closeCount : List Event → Nat
  | [] => 0
  | Event.closePrint :: es => closeCount es + 1
  | _ :: es => closeCount es

def motorCount : List Event → Nat
  | [] => 0
  | Event.motorSpin _ :: es => motorCount es + 1
  | _ :: es => motorCount es

def sleepSum : List Event → Nat
  | [] => 0
  | Event.sleepEv n :: es => n + sleepSum es
  | _ :: es => sleepSum es

/-- The trace up to (excluding) the first close-action print. -/
def untilClose : List Event → List Event
  | [] => []
  | Event.closePrint :: _ => []
  | e :: es => e :: untilClose es

/-- The trace after the first absent poll verdict. -/
def afterFirstAbsent : List Event → List Event
  | [] => []
  | Event.poll false :: es => es
  | _ :: es => afterFirstAbsent es

/-- Seconds slept between the first absent poll and the close action. -/
def secondsFromFirstAbsentToClose (es : List Event) : Nat :=
  sleepSum (untilClose (afterFirstAbsent es))

/-- Whether the display power-off immediately follows the close print. -/
def hasCloseThenOff : List Event → Bool
  | Event.closePrint :: Event.oledOff :: _ => true
  | _ :: es => hasCloseThenOff es
  | [] => false

/-- The C2 scenario streams: presence at the first poll, absent at
every later poll, and no button edge. -/
def c2pres : Nat → Bool := fun t => t == 0

def c2run : Option LoopState := autoRun 2 c2pres (fun _ => false) false

def c2trace : List Event :=
  match c2run with
  | some s => s.events
  | none => []

/-! ## Invariant: without button edges the main flow never sets
mode_switch (it only ever clears it) -/

theorem absence_no_irq (pres irqAt : Nat → Bool) (hirq : ∀ i, irqAt i = false) :
    ∀ (fuel t : Nat) (s s' : LoopState), s.mode_switch = false →
      absence_while pres irqAt fuel t s = some s' → s'.mode_switch = false := by
  intro fuel
  induction fuel with
  | zero => intro t s s' _ h; simp [absence_while] at h
  | succ fuel ih =>
    intro t s s' hms h
    simp only [absence_while] at h
    split at h
    · obtain rfl : s = s' := by injection h
      exact hms
    · split at h
      · obtain rfl : s = s' := by injection h
        exact hms
      · split at h
        · obtain rfl : { s with events := s.events ++ [Event.closePrint, Event.oledOff] } = s' := by
            injection h
          exact hms
        · exact ih _ _ s' (by simp [doPoll, doSleep, hms, hirq]) h

theorem presence_no_irq (pres irqAt : Nat → Bool) (hirq : ∀ i, irqAt i = false) :
    ∀ (fuel : Nat) (s s' : LoopState), s.mode_switch = false →
      presence_while pres irqAt fuel s = some s' → s'.mode_switch = false := by
  intro fuel
  induction fuel with
  | zero => intro s s' _ h; simp [presence_while] at h
  | succ fuel ih =>
    intro s s' hms h
    simp only [presence_while] at h
    split at h
    · obtain rfl : s = s' := by injection h
      exact hms
    · split at h
      · obtain rfl : { s with mode_switch := false } = s' := by injection h
        rfl
      · cases habs : absence_while pres irqAt (action_after_seconds + 1) 0
            (doPoll pres (doSleep irqAt polling_interval_presence
              { s with events := s.events ++ [Event.showSomething] })) with
        | none => rw [habs] at h; exact absurd h (by simp)
        | some s3 =>
          rw [habs] at h
          have hs3 : s3.mode_switch = false :=
            absence_no_irq pres irqAt hirq _ _ _ s3
              (by simp [doPoll, doSleep, hms, hirq]) habs
          exact ih s3 s' hs3 h

theorem auto_no_irq (pres irqAt : Nat → Bool) (hirq : ∀ i, irqAt i = false)
    (fuel : Nat) (s s' : LoopState) (hms : s.mode_switch = false)
    (h : auto_block fuel pres irqAt s = some s') : s'.mode_switch = false := by
  simp only [auto_block] at h
  cases hpw : presence_while pres irqAt fuel (doPoll pres s) with
  | none => rw [hpw] at h; exact absurd h (by simp)
  | some s1 =>
    rw [hpw] at h
    simp only [Option.some.injEq] at h
    subst h
    have h1 : s1.mode_switch = false :=
      presence_no_irq pres irqAt hirq fuel _ s1 (by simp [doPoll, hms]) hpw
    simp [doSleep, h1, hirq]

/-! ## Theorems: scheduler and frame claims -/

set_option maxRecDepth 40000 in
/-- Claim C2, evaluated at the failing input (presence on the first
poll, then absence, no button edges): the AUTOMATIC block does trigger
the close action exactly once, exactly 60 seconds of polling after the
first absent verdict, and powers the display off right after it -- but
the trace contains NO actuator invocation: the close action of
lines 209-212 is only a print plus a display power-off, and motor_spin
is never called, contradicting the claim (and the AUTO-mode comment of
line 48 of the source). -/
theorem C2_auto_close_trace :
    c2run.isSome = true ∧
    closeCount c2trace = 1 ∧
    motorCount c2trace = 0 ∧
    secondsFromFirstAbsentToClose c2trace = 60 ∧
    hasCloseThenOff c2trace = true := by decide

/-- Claim C6 counterexample: with presence on the first poll and a
button edge during the first sleep, the absence loop observes
mode_switch at its top and both loops exit back to the dispatcher --
but the flag is NOT cleared on this path (line 206 breaks without the
clearing assignment of line 197): the block returns with mode_switch
still true. -/
theorem C6_absence_break_flag_cex :
    autoRun 2 (fun t => t == 0) (fun i => i == 0) false =
      some { events := [Event.poll true, Event.showSomething, Event.sleepEv 1,
                        Event.poll false, Event.sleepEv 5],
             mode_switch := true, presence_detected := false,
             pollIdx := 2, sleepIdx := 2 } := by decide

/-- Claim C6 amended: a mode_switch observation at the top of the
presence-tracking loop breaks out and clears the flag; a mode_switch
observation at the top of the absence-timing loop breaks out of that
loop, after which the presence-tracking loop exits by its condition,
but the flag REMAINS set on that path (it is cleared later, by the
next mode's loop). -/
theorem C6_modeswitch_amended : ∀ (pres irqAt : Nat → Bool) (fuel t : Nat)
    (ev : List Event) (pi si : Nat),
    presence_while pres irqAt (fuel + 1)
        { events := ev, mode_switch := true, presence_detected := true,
          pollIdx := pi, sleepIdx := si } =
      some { events := ev, mode_switch := false, presence_detected := true,
             pollIdx := pi, sleepIdx := si } ∧
    absence_while pres irqAt (fuel + 1) t
        { events := ev, mode_switch := true, presence_detected := false,
          pollIdx := pi, sleepIdx := si } =
      some { events := ev, mode_switch := true, presence_detected := false,
             pollIdx := pi, sleepIdx := si } ∧
    presence_while pres irqAt (fuel + 1)
        { events := ev, mode_switch := true, presence_detected := false,
          pollIdx := pi, sleepIdx := si } =
      some { events := ev, mode_switch := true, presence_detected := false,
             pollIdx := pi, sleepIdx := si } := by
  intro pres irqAt fuel t ev pi si
  refine ⟨rfl, rfl, rfl⟩

/-- Claim C9 counterexample: the claim says the main control flow never
writes the shared variables, but motor_spin (main flow) entered with
button_pushed set and no interrupt during the call returns with the
flag cleared: the write of line 179 is a main-flow write. -/
theorem C9_main_flow_writes_cex :
    (motor_spin 1 false true (fun _ => false)).button_pushed = false := by
  have h := motor_spin_entry_abort false (fun _ => false) (1 * step_count) 0 0
    [0,0,0,0] 0 (by norm_num [step_count])
  exact congrArg SpinResult.button_pushed h

/-- Claim C9 amended: the interrupt context is the only context that
SETS mode_switch and button_pushed; the main flow also writes them, but
only to clear them (motor_spin clears button_pushed at the inter-step
checkpoint, the loop tops clear or consume mode_switch), and
motor_retract_steps is written by motor_spin itself.  Concretely: with
no button edge, a motor_spin call entered with the flag clear returns
it clear, and an AUTOMATIC block entered with mode_switch clear returns
it clear. -/
theorem C9_frame_amended : ∀ (r : Nat) (d : Bool) (irq : Nat → Bool)
    (fuel : Nat) (pres irqAt : Nat → Bool) (s' : LoopState),
    (∀ i, irq i = false) → (∀ i, irqAt i = false) →
    (motor_spin r d false irq).button_pushed = false ∧
    (auto_block fuel pres irqAt
        { events := [], mode_switch := false, presence_detected := false,
          pollIdx := 0, sleepIdx := 0 } = some s' →
      s'.mode_switch = false) := by
  intro r d irq fuel pres irqAt s' h1 h2
  constructor
  · obtain ⟨p, heq, -, -⟩ := spinLoop_no_irq d irq h1
      (r * step_count) 0 0 [0,0,0,0] 0 (by norm_num)
    exact congrArg SpinResult.button_pushed heq
  · intro h
    exact auto_no_irq pres irqAt h2 fuel _ s' rfl h

/-- Claim C9 witness: the amended statement at a concrete no-edge run. -/
theorem C9_frame_amended_witness :
    (motor_spin 1 false false (fun _ => false)).button_pushed = false ∧
    ({ events := [Event.poll false, Event.sleepEv 5], mode_switch := false,
       presence_detected := false, pollIdx := 1, sleepIdx := 1 } : LoopState).mode_switch
      = false := by
  obtain ⟨h1, h2⟩ := C9_frame_amended 1 false (fun _ => false) 1
      (fun _ => false) (fun _ => false)
      { events := [Event.poll false, Event.sleepEv 5], mode_switch := false,
        presence_detected := false, pollIdx := 1, sleepIdx := 1 }
      (fun _ => rfl) (fun _ => rfl)
  exact ⟨h1, h2 (by decide)⟩
